import Mathlib

/-!
Verification development for the pregnancy-episode dataset definition
(src/analysis/dataset_definition.py).  Dates are modelled as integers
(day numbers); a Python date subtraction (a - b).days becomes integer
subtraction.  Python dicts keyed by event-type strings are modelled as
insertion-ordered association lists.  Scores are exact rationals.
-/

abbrev Date := Int

/-- An event map models a Python dict from event-type key to date,
in insertion order. -/
abbrev EventMap := List (String × Date)

/-- A patient timeline: raw (event type, date) records. -/
abbrev Patient := List (String × Date)

def hasKey (m : EventMap) (k : String) : Bool :=
  m.any (fun p => p.1 == k)

def lookupKey (m : EventMap) (k : String) : Option Date :=
  (m.find? (fun p => p.1 == k)).map (fun p => p.2)

/-- Fold computing the minimum of a list of dates; models minimum_of
applied to a nonempty argument list (none for the empty list). -/
def minDate? : List Date → Option Date
  | [] => none
  | d :: rest =>
    match minDate? rest with
    | none => some d
    | some m => some (min d m)

/-- Fold computing the maximum of a list of dates; models maximum_of. -/
def maxDate? : List Date → Option Date
  | [] => none
  | d :: rest =>
    match maxDate? rest with
    | none => some d
    | some m => some (max d m)

/-- EPISODE_IDENTIFICATION primary_indicators, in source order. -/
def primaryIndicators : List (String × ℚ) :=
  [("pregnancy_test", 3/10), ("booking_visit", 3/10),
   ("dating_scan", 2/10), ("antenatal_screening", 2/10)]

/-- EPISODE_IDENTIFICATION secondary_indicators, in source order. -/
def secondaryIndicators : List (String × ℚ) :=
  [("gestational_diabetes", 1/10), ("preeclampsia", 1/10),
   ("pregnancy_hypertension", 1/10), ("hyperemesis", 1/20),
   ("pregnancy_infection", 1/20)]

/-- EPISODE_IDENTIFICATION outcome_indicators, in source order. -/
def outcomeIndicators : List (String × ℚ) :=
  [("live_birth", 2/5), ("stillbirth", 3/10), ("miscarriage", 1/5),
   ("abortion", 1/5), ("ectopic_pregnancy", 3/10), ("molar_pregnancy", 3/10)]

/-- EPISODE_IDENTIFICATION temporal_rules, min_episode_gap. -/
def min_episode_gap : Int := 180

/-- EPISODE_IDENTIFICATION temporal_rules, max_episode_duration. -/
def max_episode_duration : Int := 294

/-- EPISODE_IDENTIFICATION temporal_rules, min_episode_duration. -/
def min_episode_duration : Int := 154

/-- EPISODE_IDENTIFICATION temporal_rules, max_outcome_delay. -/
def max_outcome_delay : Int := 84

/-- identify_episode_start: collect primary-indicator dates; if none,
secondary-indicator dates; if still none, all event dates.  Return the
minimum; when a previous episode end is given, the source returns
minimum_of(earliest_date, previous_episode_end). -/
def identify_episode_start (events : EventMap) (previous_episode_end : Option Date) :
    Option Date :=
  if events = [] then none
  else
    let primary_dates := primaryIndicators.filterMap (fun kw => lookupKey events kw.1)
    let with_secondary :=
      if primary_dates = [] then
        secondaryIndicators.filterMap (fun kw => lookupKey events kw.1)
      else primary_dates
    let dates_to_check :=
      if with_secondary = [] then events.map (fun p => p.2) else with_secondary
    match minDate? dates_to_check with
    | none => none
    | some earliest_date =>
      match previous_episode_end with
      | some prev => some (min earliest_date prev)
      | none => some earliest_date

/-- identify_episode_end: with no outcomes the source returns start_date
(its fetched max duration is left unused); otherwise it takes the earliest
outcome date, forms later_event_dates = [max(e, earliest_outcome)] over the
event dates, and returns minimum_of(latest_event_date, earliest_outcome),
falling back to minimum_of(earliest_outcome, start_date) when there are no
event dates. -/
def identify_episode_end (events : EventMap) (start_date : Date) (outcomes : EventMap) :
    Option Date :=
  if outcomes = [] then some start_date
  else
    match minDate? (outcomes.map (fun p => p.2)) with
    | none => none
    | some earliest_outcome_date =>
      match maxDate? (events.map (fun p => max p.2 earliest_outcome_date)) with
      | some latest_event_date => some (min latest_event_date earliest_outcome_date)
      | none => some (min earliest_outcome_date start_date)

/-- Sum of the weights of the configured indicators whose key is present
in the given map; models the accumulation loops of
calculate_episode_confidence. -/
def sumWeightsPresent (cfg : List (String × ℚ)) (m : EventMap) : ℚ :=
  cfg.foldl (fun acc kw => if hasKey m kw.1 then acc + kw.2 else acc) 0

/-- calculate_episode_confidence: adds the weights of the primary,
secondary and outcome indicators that are present, adds the unconditional
0.2 temporal-validity bonus, and caps the result at 1.0 from above only.
The computed episode duration is never used. -/
def calculate_episode_confidence (events outcomes : EventMap)
    (start_date end_date : Date) : ℚ :=
  min (sumWeightsPresent primaryIndicators events
        + sumWeightsPresent secondaryIndicators events
        + sumWeightsPresent outcomeIndicators outcomes
        + 1/5) 1

/-- One entry of OUTCOME_CLASSIFICATION primary_outcomes. -/
structure OutcomeInfo where
  weight : ℚ
  min_gestational_age : Int
  max_gestational_age : Int
  required_events : List String
  optional_events : List String
  complications : List String
deriving DecidableEq

/-- OUTCOME_CLASSIFICATION primary_outcomes as a lookup table. -/
def primaryOutcomes (t : String) : Option OutcomeInfo :=
  if t = "live_birth" then
    some ⟨4/10, 154, 294, ["booking_visit", "antenatal_screening"],
      ["dating_scan", "antenatal_risk"],
      ["postpartum_hemorrhage", "third_degree_tear", "shoulder_dystocia"]⟩
  else if t = "stillbirth" then
    some ⟨3/10, 154, 294, ["booking_visit", "antenatal_screening"],
      ["dating_scan", "antenatal_risk"],
      ["placenta_previa", "placental_abruption"]⟩
  else if t = "miscarriage" then
    some ⟨2/10, 0, 196, ["pregnancy_test"], ["booking_visit", "dating_scan"],
      ["pregnancy_bleeding", "pregnancy_infection"]⟩
  else if t = "abortion" then
    some ⟨2/10, 0, 196, ["pregnancy_test"], ["booking_visit"],
      ["pregnancy_bleeding", "pregnancy_infection"]⟩
  else if t = "ectopic_pregnancy" then
    some ⟨3/10, 0, 84, ["pregnancy_test"], ["dating_scan"],
      ["pregnancy_bleeding", "pregnancy_infection"]⟩
  else if t = "molar_pregnancy" then
    some ⟨3/10, 0, 196, ["pregnancy_test", "dating_scan"], ["booking_visit"],
      ["pregnancy_bleeding", "pregnancy_infection"]⟩
  else none

/-- The per-candidate confidence of classify_outcome_type: 0.3 for a
gestational age inside the window, 0.3 when every required event is
present, 0.2 when any optional event is present, 0.2 when any associated
complication is present among the events. -/
def candidateScore (events : EventMap) (info : OutcomeInfo) (ga : Int) : ℚ :=
  (if info.min_gestational_age ≤ ga ∧ ga ≤ info.max_gestational_age then 3/10 else 0)
    + (if info.required_events.all (fun e => hasKey events e) then 3/10 else 0)
    + (if info.optional_events.any (fun e => hasKey events e) then 2/10 else 0)
    + (if info.complications.any (fun e => hasKey events e) then 2/10 else 0)

/-- The loop body of classify_outcome_type: outcome types missing from the
configuration are skipped; a candidate replaces the running best only when
its confidence is strictly greater. -/
def classifyLoop (events : EventMap) (ga : Int) :
    List (String × Date) → Option String → ℚ → Option String × ℚ
  | [], best_outcome, best_confidence => (best_outcome, best_confidence)
  | (outcome_type, _) :: rest, best_outcome, best_confidence =>
    match primaryOutcomes outcome_type with
    | none => classifyLoop events ga rest best_outcome best_confidence
    | some outcome_info =>
      let confidence := candidateScore events outcome_info ga
      if best_confidence < confidence then
        classifyLoop events ga rest (some outcome_type) confidence
      else
        classifyLoop events ga rest best_outcome best_confidence

/-- classify_outcome_type: returns (None, 0.0) for an empty outcome map,
otherwise scans the outcome map keeping the strictly best candidate. -/
def classify_outcome_type (events outcomes : EventMap) (gestational_age : Int) :
    Option String × ℚ :=
  if outcomes = [] then (none, 0)
  else classifyLoop events gestational_age outcomes none 0

/-- Generic strict-improvement selection fold over scored candidates;
classifyLoop is an instance of it. -/
def selectBest : List (String × ℚ) → Option String × ℚ → Option String × ℚ
  | [], acc => acc
  | p :: rest, acc =>
    if acc.2 < p.2 then selectBest rest (some p.1, p.2) else selectBest rest acc

/-- The valid candidates of a classification call, paired with their
scores, in outcome-map order. -/
def outcomeCandidates (events outcomes : EventMap) (ga : Int) : List (String × ℚ) :=
  outcomes.filterMap
    (fun p => (primaryOutcomes p.1).map (fun info => (p.1, candidateScore events info ga)))

/-- Specification-side best score: the maximum candidate score, at least 0. -/
def bestCandidateScore (cands : List (String × ℚ)) : ℚ :=
  (cands.map Prod.snd).foldl max 0

/-- Specification-side choice: none when no candidate scores above 0,
otherwise the first candidate attaining the maximum score. -/
def bestCandidateChoice (cands : List (String × ℚ)) : Option String :=
  if bestCandidateScore cands ≤ 0 then none
  else (cands.find? (fun p => decide (p.2 = bestCandidateScore cands))).map Prod.fst

/-- The codelist file keys, in source insertion order. -/
def codelistKeys : List String :=
  ["pregnancy_test", "booking_visit", "dating_scan", "antenatal_screening",
   "antenatal_risk", "antenatal_procedures",
   "live_birth", "stillbirth", "miscarriage", "abortion",
   "ectopic_pregnancy", "molar_pregnancy",
   "caesarean_section", "forceps_delivery", "vacuum_extraction",
   "induction", "episiotomy",
   "gestational_diabetes", "preeclampsia", "pregnancy_hypertension",
   "hyperemesis", "pregnancy_infection", "pregnancy_bleeding",
   "pregnancy_anemia", "pregnancy_thrombosis", "pregnancy_mental_health",
   "antenatal_vitamins", "anti_emetics", "antihypertensives",
   "antidiabetics", "antibiotics", "mental_health_meds", "pain_relief",
   "postpartum_hemorrhage", "third_degree_tear", "shoulder_dystocia",
   "placenta_previa", "placental_abruption"]

/-- Membership of a codelist key in the primary or secondary indicator sets. -/
def isEpisodeIndicator (k : String) : Bool :=
  primaryIndicators.any (fun kw => kw.1 == k)
    || secondaryIndicators.any (fun kw => kw.1 == k)

/-- Membership of a codelist key in the outcome indicator set. -/
def isOutcomeIndicator (k : String) : Bool :=
  outcomeIndicators.any (fun kw => kw.1 == k)

/-- Earliest date of the patient events of one type, restricted to dates
strictly after the cutoff when one is given; models
clinical_events.where(is_in codelist [and date > previous_episode_end])
.date.minimum_for_patient(). -/
def minDateOfType (patient : Patient) (t : String) (cutoff : Option Date) :
    Option Date :=
  minDate?
    ((patient.filter (fun ev =>
        ev.1 == t &&
          (match cutoff with
           | none => true
           | some c => decide (c < ev.2)))).map (fun ev => ev.2))

/-- The per-episode events dict: for each codelist key that is a primary or
secondary indicator, the earliest matching date (key absent when no event
matches). -/
def collectEpisodeEvents (patient : Patient) (cutoff : Option Date) : EventMap :=
  (codelistKeys.filter isEpisodeIndicator).filterMap
    (fun k => (minDateOfType patient k cutoff).map (fun d => (k, d)))

/-- The per-episode outcomes dict, analogously over the outcome indicators. -/
def collectEpisodeOutcomes (patient : Patient) (cutoff : Option Date) : EventMap :=
  (codelistKeys.filter isOutcomeIndicator).filterMap
    (fun k => (minDateOfType patient k cutoff).map (fun d => (k, d)))

/-- The per-episode record built by the module-level loop. -/
structure EpisodeData where
  number : Nat
  events : EventMap
  outcomes : EventMap
  start_date : Option Date
  end_date : Option Date
  confidence : ℚ
deriving DecidableEq

/-- One iteration of the module-level episode loop: collect events and
outcomes (past the previous episode end, when any), identify start and
end, and compute the confidence only when both boundaries exist. -/
def buildEpisode (patient : Patient) (num : Nat) (prev : Option Date) : EpisodeData :=
  let ev := collectEpisodeEvents patient prev
  let out := collectEpisodeOutcomes patient prev
  match identify_episode_start ev prev with
  | none => ⟨num, ev, out, none, none, 0⟩
  | some sd =>
    match identify_episode_end ev sd out with
    | none => ⟨num, ev, out, some sd, none, 0⟩
    | some ed =>
      ⟨num, ev, out, some sd, some ed, calculate_episode_confidence ev out sd ed⟩

/-- The module-level loop for episode_num in range(1, 3): an episode is
appended, and becomes the previous episode, exactly when both its start
and end dates are present. -/
def buildEpisodes (patient : Patient) : List EpisodeData :=
  let e1 := buildEpisode patient 1 none
  let keep1 := e1.start_date.isSome && e1.end_date.isSome
  let prev1 : Option Date := if keep1 then e1.end_date else none
  let e2 := buildEpisode patient 2 prev1
  let keep2 := e2.start_date.isSome && e2.end_date.isSome
  (if keep1 then [e1] else []) ++ (if keep2 then [e2] else [])

/-- An issue record: type tag and severity string. -/
structure Issue where
  itype : String
  severity : String
deriving DecidableEq

/-- DATA_QUALITY_REPORTING metrics completeness required_events. -/
def reportingRequiredEvents : List String := ["pregnancy_test", "booking_visit"]

/-- DATA_QUALITY_REPORTING metrics completeness required_outcomes. -/
def reportingRequiredOutcomes : List String :=
  ["live_birth", "stillbirth", "miscarriage", "abortion"]

/-- calculate_completeness_score: 1.0 with nothing missing, otherwise
1 - missing / (len required_events + len required_outcomes), floored at 0. -/
def calculate_completeness_score (missing_required : List String) : ℚ :=
  if missing_required = [] then 1
  else
    max 0 (1 - (missing_required.length : ℚ) /
      ((reportingRequiredEvents.length : ℚ) + (reportingRequiredOutcomes.length : ℚ)))

/-- calculate_consistency_score: 1.0 with no issues, otherwise
1 - (date issues + value issues) / 3, floored at 0. -/
def calculate_consistency_score (date_issues value_issues : List Issue) : ℚ :=
  if date_issues = [] ∧ value_issues = [] then 1
  else max 0 (1 - ((date_issues.length : ℚ) + (value_issues.length : ℚ)) / 3)

/-- calculate_plausibility_score: 1.0 with no issues, otherwise
1 - (clinical issues + temporal issues) / 4, floored at 0. -/
def calculate_plausibility_score (clinical_issues temporal_issues : List Issue) : ℚ :=
  if clinical_issues = [] ∧ temporal_issues = [] then 1
  else max 0 (1 - ((clinical_issues.length : ℚ) + (temporal_issues.length : ℚ)) / 4)

/-- calculate_validation_score: 1.0 with no issues, otherwise
1 - issues / 2, floored at 0. -/
def calculate_validation_score (issues : List Issue) : ℚ :=
  if issues = [] then 1
  else max 0 (1 - (issues.length : ℚ) / 2)

/-- The quality report of one episode, with the fields the summary reads.
The consistency and plausibility generic issues lists are kept because the
source appends only to the date_issues and clinical_issues lists, leaving
these empty, which determines what the severity categorisation sees. -/
structure QualityReport where
  completeness_missing : List String
  completeness_issues : List Issue
  consistency_date_issues : List Issue
  consistency_value_issues : List Issue
  consistency_issues : List Issue
  plausibility_clinical_issues : List Issue
  plausibility_temporal_issues : List Issue
  plausibility_issues : List Issue
  validation_issues : List Issue
  completeness_score : ℚ
  consistency_score : ℚ
  plausibility_score : ℚ
  validation_score : ℚ
  quality_score : ℚ
  critical_issues : List Issue
  high_priority_issues : List Issue
  medium_priority_issues : List Issue
  low_priority_issues : List Issue
deriving DecidableEq

/-- calculate_overall_quality_score: the severity-weighted sum
0.3 completeness + 0.3 consistency + 0.2 plausibility + 0.2 validation,
accumulated over the weights table. -/
def calculate_overall_quality_score (r : QualityReport) : ℚ :=
  [(r.completeness_score, (3 : ℚ)/10), (r.consistency_score, (3 : ℚ)/10),
   (r.plausibility_score, (2 : ℚ)/10), (r.validation_score, (2 : ℚ)/10)].foldl
    (fun acc p => acc + p.1 * p.2) 0

/-- The episode_data dict fed to generate_quality_report; an absent
outcome_type key is modelled as none, as are absent outcome-data fields. -/
structure EpisodeInput where
  number : Nat
  events : EventMap
  outcomes : EventMap
  start_date : Option Date
  end_date : Option Date
  outcome_type : Option String
  birth_weight : Option Int
  apgar_score : Option Int
deriving DecidableEq

/-- validate_outcome: gestational-age range, required events, birth weight
and APGAR checks against OUTCOME_CLASSIFICATION, in source order. -/
def validate_outcome (outcome_type : String) (birth_weight apgar_score : Option Int)
    (events : EventMap) (gestational_age : Int) : List Issue :=
  match primaryOutcomes outcome_type with
  | none => [⟨"invalid_outcome_type", "high"⟩]
  | some info =>
    (if gestational_age < info.min_gestational_age then
        [⟨"gestational_age_too_low", "high"⟩]
      else if gestational_age > info.max_gestational_age then
        [⟨"gestational_age_too_high", "high"⟩]
      else [])
    ++ (if (info.required_events.filter (fun e => !(hasKey events e))) = [] then []
        else [⟨"missing_required_events", "high"⟩])
    ++ (match birth_weight with
        | none => []
        | some w =>
          if w < 500 then [⟨"birth_weight_too_low", "high"⟩]
          else if w > 6000 then [⟨"birth_weight_too_high", "high"⟩]
          else [])
    ++ (match apgar_score with
        | none => []
        | some a =>
          if a < 0 then [⟨"apgar_score_too_low", "high"⟩]
          else if a > 10 then [⟨"apgar_score_too_high", "high"⟩]
          else [])

/-- The condition keys counted by the plausibility check of
generate_quality_report. -/
def plausibilityConditionKeys : List String :=
  ["gestational_diabetes", "preeclampsia", "pregnancy_hypertension",
   "hyperemesis", "pregnancy_infection", "pregnancy_bleeding"]

/-- generate_quality_report.  The validation step reads the local
gestational_age variable that only exists when both dates are present;
with an outcome_type but a missing date the source raises NameError,
modelled as the error case. -/
def generate_quality_report (ep : EpisodeInput) : Except String QualityReport :=
  let missingE := reportingRequiredEvents.filter (fun t => !(hasKey ep.events t))
  let missingO := reportingRequiredOutcomes.filter (fun t => !(hasKey ep.outcomes t))
  let completeness_missing := missingE ++ missingO
  let completeness_issues :=
    missingE.map (fun _ => (⟨"missing_required_event", "high"⟩ : Issue))
      ++ missingO.map (fun _ => (⟨"missing_required_outcome", "high"⟩ : Issue))
  let ga? : Option Int :=
    match ep.start_date, ep.end_date with
    | some s, some e => some (e - s)
    | _, _ => none
  let date_issues : List Issue :=
    match ga? with
    | none => []
    | some ga =>
      if ga < 154 then [⟨"gestational_age_too_low", "high"⟩]
      else if ga > 294 then [⟨"gestational_age_too_high", "high"⟩]
      else []
  let conditions_count :=
    (ep.events.filter (fun p => plausibilityConditionKeys.any (fun c => c == p.1))).length
  let clinical_issues : List Issue :=
    if conditions_count > 5 then [⟨"too_many_conditions", "medium"⟩] else []
  match ep.outcome_type, ga? with
  | some _, none => Except.error "NameError: gestational_age is not defined"
  | ot?, _ =>
    let validation_issues :=
      match ot?, ga? with
      | some ot, some ga => validate_outcome ot ep.birth_weight ep.apgar_score ep.events ga
      | _, _ => []
    let comp_score := calculate_completeness_score completeness_missing
    let cons_score := calculate_consistency_score date_issues []
    let plaus_score := calculate_plausibility_score clinical_issues []
    let valid_score := calculate_validation_score validation_issues
    let all_issues := completeness_issues ++ [] ++ [] ++ validation_issues
    let base : QualityReport :=
      { completeness_missing := completeness_missing
        completeness_issues := completeness_issues
        consistency_date_issues := date_issues
        consistency_value_issues := []
        consistency_issues := []
        plausibility_clinical_issues := clinical_issues
        plausibility_temporal_issues := []
        plausibility_issues := []
        validation_issues := validation_issues
        completeness_score := comp_score
        consistency_score := cons_score
        plausibility_score := plaus_score
        validation_score := valid_score
        quality_score := 0
        critical_issues := all_issues.filter (fun i => i.severity == "critical")
        high_priority_issues := all_issues.filter (fun i => i.severity == "high")
        medium_priority_issues := all_issues.filter (fun i => i.severity == "medium")
        low_priority_issues :=
          all_issues.filter (fun i =>
            !(i.severity == "critical") && !(i.severity == "high")
              && !(i.severity == "medium")) }
    Except.ok { base with quality_score := calculate_overall_quality_score base }

/-- The per-patient summary record of generate_dataset_quality_summary
(the issue tallies are never reached, see below). -/
structure QualitySummary where
  total_episodes : Nat
  excellent : Nat
  good : Nat
  fair : Nat
  poor : Nat
  unacceptable : Nat
deriving DecidableEq

/-- Reading report["summary"][key]: the keys that exist on the per-episode
summary dict.  The severity loop asks for critical_priority_issues, a key
that does not exist (the dict holds critical_issues), so that lookup
returns none, the Python KeyError. -/
def summaryReportLookup (r : QualityReport) (key : String) : Option (List Issue) :=
  if key = "critical_issues" then some r.critical_issues
  else if key = "high_priority_issues" then some r.high_priority_issues
  else if key = "medium_priority_issues" then some r.medium_priority_issues
  else if key = "low_priority_issues" then some r.low_priority_issues
  else none

/-- The severity iteration order of the common-issue tracking loop. -/
def severityOrder : List String := ["critical", "high", "medium", "low"]

/-- The common-issue tracking step: each severity reads
report["summary"][severity + "_priority_issues"], a KeyError for
critical; had the key resolved, indexing the list-initialised
common_issues bucket with an issue-type string would raise TypeError. -/
def trackSeverityStep (r : QualityReport) : Except String Unit :=
  severityOrder.foldlM
    (fun _ sev =>
      match summaryReportLookup r (sev ++ "_priority_issues") with
      | none => Except.error ("KeyError: " ++ sev ++ "_priority_issues")
      | some issue_list =>
        if issue_list = [] then Except.ok ()
        else Except.error "TypeError: list indices must be integers or slices, not str")
    ()

/-- The quality-score bucketing of generate_dataset_quality_summary. -/
def bucketEpisode (s : QualitySummary) (score : ℚ) : QualitySummary :=
  if 9/10 ≤ score then { s with excellent := s.excellent + 1 }
  else if 8/10 ≤ score then { s with good := s.good + 1 }
  else if 7/10 ≤ score then { s with fair := s.fair + 1 }
  else if 6/10 ≤ score then { s with poor := s.poor + 1 }
  else { s with unacceptable := s.unacceptable + 1 }

/-- generate_dataset_quality_summary: per episode, generate the report,
bucket its quality score, then run the common-issue tracking, which fails. -/
def generate_dataset_quality_summary (episodes : List EpisodeInput) :
    Except String QualitySummary :=
  episodes.foldlM
    (fun s ep => do
      let r ← generate_quality_report ep
      let s := bucketEpisode s r.quality_score
      let _ ← trackSeverityStep r
      pure s)
    { total_episodes := episodes.length, excellent := 0, good := 0,
      fair := 0, poor := 0, unacceptable := 0 }

/-- Modelled from the spec: the repository has no attributor or
reattributor code under src (spec section 4.4 is the only description),
so the episode boundaries used by the two-pass attribution are modelled
from the spec as a start date and an outcome date. -/
structure SpecEpisode where
  start : Date
  outcome : Date
deriving DecidableEq

/-- Modelled from the spec: pass-1 provisional attribution puts every
secondary event with timestamp in [episode.start, episode.end +
post_outcome_buffer] on that episode. -/
def pass1Attributed (ep : SpecEpisode) (post_outcome_buffer : Int) (d : Date) : Bool :=
  decide (ep.start ≤ d) && decide (d ≤ ep.outcome + post_outcome_buffer)

/-- Modelled from the spec: an event is a reattribution candidate when it
falls inside the category-specific symmetric window around the next
episode start. -/
def reattributionCandidate (next_start : Date) (buffer : Int) (d : Date) : Bool :=
  decide (next_start - buffer ≤ d) && decide (d ≤ next_start + buffer)

/-- Modelled from the spec: pass 2 moves an event attributed to episode i
to episode i+1 exactly when episode i+1 exists, the event is a
reattribution candidate for it, and the days from episode i's outcome to
the event strictly exceed the days from the event to episode i+1's start. -/
def passTwoMoves (ep : SpecEpisode) (next : Option SpecEpisode)
    (buffer post_outcome_buffer : Int) (d : Date) : Bool :=
  match next with
  | none => false
  | some nxt =>
    pass1Attributed ep post_outcome_buffer d
      && reattributionCandidate nxt.start buffer d
      && decide (nxt.start - d < d - ep.outcome)


/-- A patient with qualifying signals and outcomes on both sides of an
episode boundary. -/
def overlapPatient : Patient :=
  [("pregnancy_test", 0), ("live_birth", 100),
   ("pregnancy_test", 300), ("live_birth", 400)]

/-- A patient with six sequential qualifying signals, each followed by an
outcome event. -/
def sixSignalPatient : Patient :=
  [("pregnancy_test", 0), ("live_birth", 100),
   ("pregnancy_test", 500), ("live_birth", 600),
   ("pregnancy_test", 1000), ("live_birth", 1100),
   ("pregnancy_test", 1500), ("live_birth", 1600),
   ("pregnancy_test", 2000), ("live_birth", 2100),
   ("pregnancy_test", 2500), ("live_birth", 2600)]

/-- A patient whose earliest outcome event precedes the earliest
qualifying signal. -/
def invertedPatient : Patient := [("pregnancy_test", 50), ("live_birth", 10)]

/-- A patient with one pregnancy test on day 0 and one live birth on
day 280. -/
def scenarioAPatient : Patient := [("pregnancy_test", 0), ("live_birth", 280)]

/-- A minimal episode input with no events, outcomes or dates. -/
def emptyEpisodeInput : EpisodeInput := ⟨1, [], [], none, none, none, none, none⟩

lemma le_foldl_max (l : List ℚ) (c : ℚ) : c ≤ l.foldl max c := by
  induction l generalizing c with
  | nil => exact le_refl c
  | cons hd tl ih =>
    calc c ≤ max c hd := le_max_left c hd
    _ ≤ (tl.foldl max (max c hd)) := ih (max c hd)
    _ = (hd :: tl).foldl max c := rfl

lemma selectBest_spec (l : List (String × ℚ)) :
    ∀ (b : Option String) (c : ℚ),
      selectBest l (b, c) =
        ((if (l.map Prod.snd).foldl max c ≤ c then b
          else (l.find? (fun p => decide (p.2 = (l.map Prod.snd).foldl max c))).map
            Prod.fst),
         (l.map Prod.snd).foldl max c) := by
  induction l with
  | nil =>
    intro b c
    simp [selectBest]
  | cons hd tl ih =>
    intro b c
    obtain ⟨t, s⟩ := hd
    by_cases hcs : c < s
    · have hsel : selectBest ((t, s) :: tl) (b, c) = selectBest tl (some t, s) := by
        simp [selectBest, hcs]
      have hmax : max c s = s := max_eq_right (le_of_lt hcs)
      have hfold : (((t, s) :: tl).map Prod.snd).foldl max c = (tl.map Prod.snd).foldl max s := by
        simp [hmax]
      set M := (tl.map Prod.snd).foldl max s with hM
      have hsM : s ≤ M := le_foldl_max _ _
      have hMc : ¬ (M ≤ c) := fun h => absurd (le_trans hsM h) (not_le.mpr hcs)
      rw [hsel, ih (some t) s, hfold]
      by_cases hMs : M ≤ s
      · have hMeq : M = s := le_antisymm hMs hsM
        have hfind : (((t, s) :: tl).find? (fun p => decide (p.2 = M))).map Prod.fst
            = some t := by
          rw [List.find?_cons_of_pos]
          · rfl
          · simp [hMeq]
        simp [hMs, hMc, hfind]
      · have hne : ¬ ((fun p => decide (p.2 = M)) (t, s) = true) := by
          simp only [decide_eq_true_eq]
          intro h
          exact hMs (le_of_eq (h ▸ rfl))
        have hfind : ((t, s) :: tl).find? (fun p => decide (p.2 = M))
            = tl.find? (fun p => decide (p.2 = M)) := by
          rw [List.find?_cons_of_neg]
          simpa using hne
        simp [hMs, hMc, hfind]
    · have hsel : selectBest ((t, s) :: tl) (b, c) = selectBest tl (b, c) := by
        simp [selectBest, hcs]
      have hmax : max c s = c := max_eq_left (not_lt.mp hcs)
      have hfold : (((t, s) :: tl).map Prod.snd).foldl max c = (tl.map Prod.snd).foldl max c := by
        simp [hmax]
      set M := (tl.map Prod.snd).foldl max c with hM
      rw [hsel, ih b c, hfold]
      by_cases hMleC : M ≤ c
      · simp [hMleC]
      · have hsltM : s < M := lt_of_le_of_lt (not_lt.mp hcs) (not_le.mp hMleC)
        have hfind : ((t, s) :: tl).find? (fun p => decide (p.2 = M))
            = tl.find? (fun p => decide (p.2 = M)) := by
          rw [List.find?_cons_of_neg]
          simp only [decide_eq_true_eq]
          exact fun h => absurd h (ne_of_lt hsltM)
        simp [hMleC, hfind]

lemma classifyLoop_eq_selectBest (events : EventMap) (ga : Int) (l : List (String × Date)) :
    ∀ (b : Option String) (c : ℚ),
      classifyLoop events ga l b c =
        selectBest
          (l.filterMap (fun p =>
            (primaryOutcomes p.1).map (fun info => (p.1, candidateScore events info ga))))
          (b, c) := by
  induction l with
  | nil => intro b c; simp [classifyLoop, selectBest]
  | cons hd tl ih =>
    intro b c
    obtain ⟨t, d⟩ := hd
    cases hpo : primaryOutcomes t with
    | none => simp [classifyLoop, hpo, ih]
    | some info =>
      by_cases hlt : c < candidateScore events info ga
      · simp [classifyLoop, hpo, hlt, selectBest, ih]
      · simp [classifyLoop, hpo, hlt, selectBest, ih]

lemma foldl_add_if_ge (m : EventMap) (cfg : List (String × ℚ)) :
    ∀ a : ℚ, (∀ kw ∈ cfg, 0 ≤ kw.2) →
      a ≤ cfg.foldl (fun acc kw => if hasKey m kw.1 then acc + kw.2 else acc) a := by
  induction cfg with
  | nil => intro a _; exact le_refl a
  | cons hd tl ih =>
    intro a hw
    have hhd : 0 ≤ hd.2 := hw hd (List.mem_cons_self hd tl)
    have hstep : a ≤ (if hasKey m hd.1 then a + hd.2 else a) := by
      by_cases h : hasKey m hd.1
      · simp [h]; linarith
      · simp [h]
    calc a ≤ (if hasKey m hd.1 then a + hd.2 else a) := hstep
    _ ≤ tl.foldl (fun acc kw => if hasKey m kw.1 then acc + kw.2 else acc)
        (if hasKey m hd.1 then a + hd.2 else a) :=
      ih _ (fun kw hkw => hw kw (List.mem_cons_of_mem hd hkw))
    _ = (hd :: tl).foldl (fun acc kw => if hasKey m kw.1 then acc + kw.2 else acc) a := rfl

lemma sumWeightsPresent_nonneg (cfg : List (String × ℚ)) (m : EventMap)
    (hw : ∀ kw ∈ cfg, 0 ≤ kw.2) : 0 ≤ sumWeightsPresent cfg m :=
  foldl_add_if_ge m cfg 0 hw

lemma confidence_bounds (ev out : EventMap) (s e : Date) :
    1/5 ≤ calculate_episode_confidence ev out s e ∧
      calculate_episode_confidence ev out s e ≤ 1 := by
  have h1 : 0 ≤ sumWeightsPresent primaryIndicators ev :=
    sumWeightsPresent_nonneg _ _ (by with_unfolding_all decide)
  have h2 : 0 ≤ sumWeightsPresent secondaryIndicators ev :=
    sumWeightsPresent_nonneg _ _ (by with_unfolding_all decide)
  have h3 : 0 ≤ sumWeightsPresent outcomeIndicators out :=
    sumWeightsPresent_nonneg _ _ (by with_unfolding_all decide)
  constructor
  · exact le_min (by linarith) (by norm_num)
  · exact min_le_right _ _

lemma minDate?_mem (l : List Date) (m : Date) (h : minDate? l = some m) : m ∈ l := by
  induction l generalizing m with
  | nil => simp [minDate?] at h
  | cons d rest ih =>
    rw [minDate?] at h
    cases hrest : minDate? rest with
    | none =>
      rw [hrest] at h
      simp only [Option.some.injEq] at h
      rw [← h]
      exact List.mem_cons_self _ _
    | some m2 =>
      rw [hrest] at h
      simp only [Option.some.injEq] at h
      rcases min_cases d m2 with ⟨heq, _⟩ | ⟨heq, _⟩
      · rw [← h, heq]
        exact List.mem_cons_self _ _
      · rw [← h, heq]
        exact List.mem_cons_of_mem _ (ih m2 hrest)

lemma maxDate?_mem (l : List Date) (m : Date) (h : maxDate? l = some m) : m ∈ l := by
  induction l generalizing m with
  | nil => simp [maxDate?] at h
  | cons d rest ih =>
    rw [maxDate?] at h
    cases hrest : maxDate? rest with
    | none =>
      rw [hrest] at h
      simp only [Option.some.injEq] at h
      rw [← h]
      exact List.mem_cons_self _ _
    | some m2 =>
      rw [hrest] at h
      simp only [Option.some.injEq] at h
      rcases max_cases d m2 with ⟨heq, _⟩ | ⟨heq, _⟩
      · rw [← h, heq]
        exact List.mem_cons_self _ _
      · rw [← h, heq]
        exact List.mem_cons_of_mem _ (ih m2 hrest)

lemma identify_episode_end_ge (ev : EventMap) (sd : Date) (out : EventMap) (ed : Date)
    (h : identify_episode_end ev sd out = some ed)
    (hout : ∀ q ∈ out, sd ≤ q.2) : sd ≤ ed := by
  rw [identify_episode_end] at h
  split at h
  · simp only [Option.some.injEq] at h
    exact le_of_eq h
  · split at h
    · exact absurd h (by simp)
    · next earliest hmin =>
      have hearliest : sd ≤ earliest := by
        have hm := minDate?_mem _ _ hmin
        simp only [List.mem_map] at hm
        obtain ⟨q, hq, hqe⟩ := hm
        exact hqe ▸ hout q hq
      split at h
      · next latest hmax =>
        simp only [Option.some.injEq] at h
        have hlatest : earliest ≤ latest := by
          have hm := maxDate?_mem _ _ hmax
          simp only [List.mem_map] at hm
          obtain ⟨q, _, hqe⟩ := hm
          calc earliest ≤ max q.2 earliest := le_max_right _ _
          _ = latest := hqe
        rw [← h]
        exact le_min (le_trans hearliest hlatest) hearliest
      · simp only [Option.some.injEq] at h
        rw [← h]
        exact le_min hearliest (le_refl sd)

lemma buildEpisode_cases (patient : Patient) (num : Nat) (prev : Option Date) :
    buildEpisode patient num prev =
      ⟨num, collectEpisodeEvents patient prev, collectEpisodeOutcomes patient prev,
        none, none, 0⟩ ∨
    (∃ sd, identify_episode_start (collectEpisodeEvents patient prev) prev = some sd ∧
      buildEpisode patient num prev =
        ⟨num, collectEpisodeEvents patient prev, collectEpisodeOutcomes patient prev,
          some sd, none, 0⟩) ∨
    (∃ sd ed, identify_episode_start (collectEpisodeEvents patient prev) prev = some sd ∧
      identify_episode_end (collectEpisodeEvents patient prev) sd
        (collectEpisodeOutcomes patient prev) = some ed ∧
      buildEpisode patient num prev =
        ⟨num, collectEpisodeEvents patient prev, collectEpisodeOutcomes patient prev,
          some sd, some ed,
          calculate_episode_confidence (collectEpisodeEvents patient prev)
            (collectEpisodeOutcomes patient prev) sd ed⟩) := by
  rw [buildEpisode]
  split
  · left
    rfl
  · next sd0 hstart =>
    split
    · next hend =>
      right; left
      exact ⟨sd0, hstart, rfl⟩
    · next ed0 hend =>
      right; right
      exact ⟨sd0, ed0, hstart, hend, rfl⟩

lemma buildEpisode_confidence_bounds (patient : Patient) (num : Nat) (prev : Option Date) :
    0 ≤ (buildEpisode patient num prev).confidence ∧
      (buildEpisode patient num prev).confidence ≤ 1 := by
  rcases buildEpisode_cases patient num prev with h | ⟨sd, _, h⟩ | ⟨sd, ed, _, _, h⟩
  · rw [h]
    norm_num
  · rw [h]
    norm_num
  · rw [h]
    have hb := confidence_bounds (collectEpisodeEvents patient prev)
      (collectEpisodeOutcomes patient prev) sd ed
    exact ⟨by linarith [hb.1], hb.2⟩

lemma buildEpisode_ga (patient : Patient) (num : Nat) (prev : Option Date)
    (sd ed : Date)
    (hs : (buildEpisode patient num prev).start_date = some sd)
    (he : (buildEpisode patient num prev).end_date = some ed)
    (hout : ∀ q ∈ (buildEpisode patient num prev).outcomes, sd ≤ q.2) :
    sd ≤ ed := by
  rcases buildEpisode_cases patient num prev with h | ⟨sd0, hstart, h⟩ |
    ⟨sd0, ed0, hstart, hend, h⟩
  · rw [h] at hs
    simp at hs
  · rw [h] at he
    simp at he
  · rw [h] at hs he hout
    simp only [Option.some.injEq] at hs he
    subst hs
    subst he
    exact identify_episode_end_ge _ _ _ _ hend hout

lemma mem_buildEpisodes (patient : Patient) (e : EpisodeData)
    (he : e ∈ buildEpisodes patient) :
    ∃ num prev, e = buildEpisode patient num prev := by
  rw [buildEpisodes] at he
  simp only [List.mem_append] at he
  rcases he with h | h
  · split at h
    · simp at h
      exact ⟨1, none, h⟩
    · simp at h
  · split at h
    · simp at h
      exact ⟨2, _, h.2⟩
    · simp at h
      exact ⟨2, _, h.2⟩

lemma clamp_bounds (x : ℚ) (hx : 0 ≤ x) : 0 ≤ max 0 (1 - x) ∧ max 0 (1 - x) ≤ 1 :=
  ⟨le_max_left _ _, max_le (by norm_num) (by linarith)⟩

lemma completeness_formula (ms : List String) :
    calculate_completeness_score ms = max 0 (1 - (ms.length : ℚ) / 6) := by
  rw [calculate_completeness_score]
  by_cases h : ms = []
  · subst h
    norm_num
  · rw [if_neg h]
    norm_num [reportingRequiredEvents, reportingRequiredOutcomes]

lemma completeness_bounds (ms : List String) :
    0 ≤ calculate_completeness_score ms ∧ calculate_completeness_score ms ≤ 1 := by
  rw [completeness_formula]
  exact clamp_bounds _ (by positivity)

lemma consistency_formula (di vi : List Issue) :
    calculate_consistency_score di vi =
      max 0 (1 - ((di.length : ℚ) + (vi.length : ℚ)) / 3) := by
  rw [calculate_consistency_score]
  by_cases h : di = [] ∧ vi = []
  · obtain ⟨h1, h2⟩ := h
    subst h1
    subst h2
    norm_num
  · rw [if_neg h]

lemma consistency_bounds (di vi : List Issue) :
    0 ≤ calculate_consistency_score di vi ∧ calculate_consistency_score di vi ≤ 1 := by
  rw [consistency_formula]
  exact clamp_bounds _ (by positivity)

lemma plausibility_formula (ci ti : List Issue) :
    calculate_plausibility_score ci ti =
      max 0 (1 - ((ci.length : ℚ) + (ti.length : ℚ)) / 4) := by
  rw [calculate_plausibility_score]
  by_cases h : ci = [] ∧ ti = []
  · obtain ⟨h1, h2⟩ := h
    subst h1
    subst h2
    norm_num
  · rw [if_neg h]

lemma plausibility_bounds (ci ti : List Issue) :
    0 ≤ calculate_plausibility_score ci ti ∧ calculate_plausibility_score ci ti ≤ 1 := by
  rw [plausibility_formula]
  exact clamp_bounds _ (by positivity)

lemma validation_formula (vs : List Issue) :
    calculate_validation_score vs = max 0 (1 - (vs.length : ℚ) / 2) := by
  rw [calculate_validation_score]
  by_cases h : vs = []
  · subst h
    norm_num
  · rw [if_neg h]

lemma validation_bounds (vs : List Issue) :
    0 ≤ calculate_validation_score vs ∧ calculate_validation_score vs ≤ 1 := by
  rw [validation_formula]
  exact clamp_bounds _ (by positivity)

lemma overall_formula (r : QualityReport) :
    calculate_overall_quality_score r =
      3/10 * r.completeness_score + 3/10 * r.consistency_score
        + 2/10 * r.plausibility_score + 2/10 * r.validation_score := by
  rw [calculate_overall_quality_score]
  simp [List.foldl]
  ring

/-- C1 (amended): classify_outcome_type scores every configured candidate
in the outcome map as 0.3 for a gestational age inside the window, plus
0.3 when all required supporting events are present, plus 0.2 when any
optional supporting event is present, plus 0.2 when any associated
complication is present; no base weight is added and no conflict-window
penalty exists.  The returned confidence is the maximum candidate score
(at least 0), and the returned outcome is the first candidate in
outcome-map order attaining that maximum, or none when no candidate
scores strictly above 0. -/
theorem classify_outcome_amended (events outcomes : EventMap) (ga : Int) :
    classify_outcome_type events outcomes ga =
      (bestCandidateChoice (outcomeCandidates events outcomes ga),
       bestCandidateScore (outcomeCandidates events outcomes ga)) := by
  rw [classify_outcome_type]
  by_cases h : outcomes = []
  · subst h
    rw [if_pos rfl]
    simp [outcomeCandidates, bestCandidateScore, bestCandidateChoice]
  · rw [if_neg h, classifyLoop_eq_selectBest, selectBest_spec]
    rfl

/-- C1 counterexample: for the single candidate live_birth with
gestational age 200 in range, the code returns confidence 3/10; the
claimed formula adds the 4/10 base weight of live_birth and would give
7/10, a different value. -/
theorem classify_base_weight_counterexample :
    classify_outcome_type [] [("live_birth", 200)] 200 = (some "live_birth", 3/10) ∧
      ¬ ((3 : ℚ)/10 = 4/10 + 3/10) := by
  constructor
  · with_unfolding_all decide
  · norm_num

/-- C2: the emitted episode list violates strict non-overlap: on
overlapPatient episode 1 ends on day 100 and episode 2 starts on day 100,
because the start search returns the minimum of the earliest candidate
and the previous episode end. -/
theorem episode_overlap_bug :
    (buildEpisodes overlapPatient).map (fun e => (e.start_date, e.end_date)) =
      [(some 0, some 100), (some 100, some 400)] ∧
      ¬ ((100 : Int) < 100) := by
  constructor
  · with_unfolding_all decide
  · norm_num

/-- C3 counterexample: a patient with six valid sequential qualifying
signals yields 2 episodes, not the claimed 5. -/
theorem six_signal_counterexample :
    (buildEpisodes sixSignalPatient).length = 2 ∧ ¬ ((2 : Nat) = 5) := by
  constructor
  · with_unfolding_all decide
  · norm_num

/-- C3 (amended): the module-level loop runs for episode numbers 1 and 2
only, so every patient yields at most 2 episodes; a patient with six
valid sequential qualifying signals yields exactly 2, with no error. -/
theorem buildEpisodes_cap :
    (∀ patient : Patient, (buildEpisodes patient).length ≤ 2) ∧
      (buildEpisodes sixSignalPatient).length = 2 := by
  constructor
  · intro p
    rw [buildEpisodes]
    split_ifs <;> simp
  · with_unfolding_all decide

lemma passTwoMoves_some_iff (ep nxt : SpecEpisode) (buffer pb d : Int) :
    passTwoMoves ep (some nxt) buffer pb d = true ↔
      (pass1Attributed ep pb d = true ∧
        reattributionCandidate nxt.start buffer d = true ∧
        nxt.start - d < d - ep.outcome) := by
  simp [passTwoMoves, Bool.and_assoc]

lemma passTwoMoves_zero_buffers (ep nxt : SpecEpisode) (d : Int)
    (hlt : ep.outcome < nxt.start) :
    passTwoMoves ep (some nxt) 0 0 d = false := by
  by_contra hb
  have htrue : passTwoMoves ep (some nxt) 0 0 d = true := by
    cases h : passTwoMoves ep (some nxt) 0 0 d
    · exact absurd h hb
    · rfl
  rw [passTwoMoves_some_iff] at htrue
  obtain ⟨h1, h2, _⟩ := htrue
  simp only [pass1Attributed, Bool.and_eq_true, decide_eq_true_eq] at h1
  simp only [reattributionCandidate, Bool.and_eq_true, decide_eq_true_eq] at h2
  obtain ⟨_, hsb⟩ := h1
  obtain ⟨hna, _⟩ := h2
  linarith

/-- C4 (amended, modelled from the spec): an event attributed to episode i
moves to episode i+1 exactly when episode i+1 exists, the event lies in
the category-specific symmetric window around episode i+1's start, and
the days from episode i's outcome to the event strictly exceed the days
from the event to episode i+1's start; with no next episode nothing
moves; and with the post-outcome buffer and the category buffer both 0,
no attributed event of an episode that ends before the next start can
move. -/
theorem reattribution_rules :
    (∀ ep nxt : SpecEpisode, ∀ buffer pb d : Int,
        passTwoMoves ep (some nxt) buffer pb d = true ↔
          (pass1Attributed ep pb d = true ∧
            reattributionCandidate nxt.start buffer d = true ∧
            nxt.start - d < d - ep.outcome)) ∧
    (∀ ep : SpecEpisode, ∀ buffer pb d : Int,
        passTwoMoves ep none buffer pb d = false) ∧
    (∀ ep nxt : SpecEpisode, ∀ d : Int, ep.outcome < nxt.start →
        passTwoMoves ep (some nxt) 0 0 d = false) := by
  refine ⟨fun ep nxt buffer pb d => passTwoMoves_some_iff ep nxt buffer pb d,
    fun ep buffer pb d => rfl,
    fun ep nxt d hlt => passTwoMoves_zero_buffers ep nxt d hlt⟩

/-- C4 witness: zero-buffer clause applied at episode (0, 280), next
episode (305, 585), event day 300. -/
theorem reattribution_rules_witness :
    passTwoMoves ⟨0, 280⟩ (some ⟨305, 585⟩) 0 0 300 = false :=
  reattribution_rules.2.2 ⟨0, 280⟩ ⟨305, 585⟩ 300 (by decide)

/-- C4 counterexample: an event on day 200 attributed to an episode with
outcome day 100 under post-outcome buffer 100 is strictly closer to the
next start (day 220) than to its own outcome, yet with category buffer 5
it is outside the candidate window and does not move, refuting the
unqualified only-if-closer formulation. -/
theorem reattribution_iff_counterexample :
    pass1Attributed ⟨0, 100⟩ 100 200 = true ∧
      ((220 : Int) - 200 < 200 - 100) ∧
      passTwoMoves ⟨0, 100⟩ (some ⟨220, 500⟩) 5 100 200 = false := by
  refine ⟨by decide, by decide, by decide⟩

/-- C5: with an empty outcome map identify_episode_end returns the start
date itself rather than start plus the 294-day maximum duration, and the
pipeline confidence of such an episode is 1/2, not 0 (the 0.2 bonus plus
the 0.3 pregnancy-test weight), so the claimed fallback values are not
produced. -/
theorem no_outcome_fallback_bug :
    identify_episode_end [("pregnancy_test", 0)] 0 [] = some 0 ∧
      calculate_episode_confidence [("pregnancy_test", 0)] [] 0 0 = 1/2 ∧
      ¬ (some (0 : Int) = some (0 + max_episode_duration)) := by
  refine ⟨by with_unfolding_all decide, by with_unfolding_all decide, by decide⟩

/-- C6: with a previous episode end on day 100 and the earliest primary
indicator on day 200, identify_episode_start returns the cutoff day 100
itself, not the earliest candidate after the cutoff. -/
theorem start_search_cutoff_bug :
    identify_episode_start [("pregnancy_test", 200)] (some 100) = some 100 ∧
      ¬ (some (100 : Int) = some 200) := by
  refine ⟨by decide, by decide⟩

/-- C7 (amended): each sub-score equals 1 - issue_count / max_allowed
clamped to [0,1], where max_allowed is 6 for completeness (the fixed
total of 2 reporting required events and 4 required outcomes, independent
of the chosen outcome type), 3 for consistency, 4 for plausibility and 2
for validation, and the overall score is 0.3 completeness +
0.3 consistency + 0.2 plausibility + 0.2 validation. -/
theorem quality_subscore_formulas :
    (∀ ms : List String,
      calculate_completeness_score ms = max 0 (1 - (ms.length : ℚ) / 6) ∧
        0 ≤ calculate_completeness_score ms ∧ calculate_completeness_score ms ≤ 1) ∧
    (∀ di vi : List Issue,
      calculate_consistency_score di vi =
          max 0 (1 - ((di.length : ℚ) + (vi.length : ℚ)) / 3) ∧
        0 ≤ calculate_consistency_score di vi ∧
        calculate_consistency_score di vi ≤ 1) ∧
    (∀ ci ti : List Issue,
      calculate_plausibility_score ci ti =
          max 0 (1 - ((ci.length : ℚ) + (ti.length : ℚ)) / 4) ∧
        0 ≤ calculate_plausibility_score ci ti ∧
        calculate_plausibility_score ci ti ≤ 1) ∧
    (∀ vs : List Issue,
      calculate_validation_score vs = max 0 (1 - (vs.length : ℚ) / 2) ∧
        0 ≤ calculate_validation_score vs ∧ calculate_validation_score vs ≤ 1) ∧
    (∀ r : QualityReport,
      calculate_overall_quality_score r =
        3/10 * r.completeness_score + 3/10 * r.consistency_score
          + 2/10 * r.plausibility_score + 2/10 * r.validation_score) :=
  ⟨fun ms => ⟨completeness_formula ms, completeness_bounds ms⟩,
   fun di vi => ⟨consistency_formula di vi, consistency_bounds di vi⟩,
   fun ci ti => ⟨plausibility_formula ci ti, plausibility_bounds ci ti⟩,
   fun vs => ⟨validation_formula vs, validation_bounds vs⟩,
   fun r => overall_formula r⟩

/-- C7 counterexample: three missing required entries give completeness
score 1/2 = 1 - 3/6; under the claimed per-outcome-type max_allowed (the
required-event count of miscarriage is 1) the clamped formula value would
be 0, a different score. -/
theorem completeness_max_allowed_counterexample :
    calculate_completeness_score ["pregnancy_test", "booking_visit", "live_birth"]
        = 1/2 ∧
      (primaryOutcomes "miscarriage").map (fun info => info.required_events.length)
        = some 1 ∧
      max 0 (1 - (3 : ℚ) / 1) = 0 ∧ ¬ ((1 : ℚ)/2 = 0) := by
  refine ⟨by with_unfolding_all decide, by with_unfolding_all decide,
    by norm_num, by norm_num⟩

/-- C8 (amended): every emitted episode has its confidence in [0,1], and
the four quality sub-score functions always return values in [0,1]; the
gestational age end - start is non-negative provided no collected outcome
event of the episode predates its start (without that proviso the code
can emit an episode whose end precedes its start). -/
theorem episode_scores_invariant (patient : Patient) (e : EpisodeData)
    (he : e ∈ buildEpisodes patient) :
    (0 ≤ e.confidence ∧ e.confidence ≤ 1) ∧
      (∀ sd ed, e.start_date = some sd → e.end_date = some ed →
        (∀ q ∈ e.outcomes, sd ≤ q.2) → 0 ≤ ed - sd) ∧
      (∀ ms : List String, 0 ≤ calculate_completeness_score ms ∧
        calculate_completeness_score ms ≤ 1) ∧
      (∀ di vi : List Issue, 0 ≤ calculate_consistency_score di vi ∧
        calculate_consistency_score di vi ≤ 1) ∧
      (∀ ci ti : List Issue, 0 ≤ calculate_plausibility_score ci ti ∧
        calculate_plausibility_score ci ti ≤ 1) ∧
      (∀ vs : List Issue, 0 ≤ calculate_validation_score vs ∧
        calculate_validation_score vs ≤ 1) := by
  obtain ⟨num, prev, heq⟩ := mem_buildEpisodes patient e he
  subst heq
  refine ⟨buildEpisode_confidence_bounds patient num prev, ?_,
    completeness_bounds, consistency_bounds, plausibility_bounds, validation_bounds⟩
  intro sd ed hs hend hout
  have hge := buildEpisode_ga patient num prev sd ed hs hend hout
  linarith

/-- C8 witness: the invariant applied to the single emitted episode of
the scenario-A patient. -/
theorem episode_scores_invariant_witness :
    0 ≤ (buildEpisode scenarioAPatient 1 none).confidence ∧
      (buildEpisode scenarioAPatient 1 none).confidence ≤ 1 :=
  (episode_scores_invariant scenarioAPatient (buildEpisode scenarioAPatient 1 none)
    (by with_unfolding_all decide)).1

/-- C8 counterexample: on invertedPatient the first emitted episode has
start day 50 and end day 10, a negative gestational age of -40 days. -/
theorem negative_ga_counterexample :
    (buildEpisodes invertedPatient).map (fun e => (e.start_date, e.end_date)) =
      [(some 50, some 10), (some 10, some 10)] ∧ (10 : Int) - 50 < 0 := by
  refine ⟨by with_unfolding_all decide, by decide⟩

/-- C9: generate_dataset_quality_summary fails on any episode: for each
episode it reads the per-episode summary under the key
critical_priority_issues, which does not exist (the dict key is
critical_issues), so a KeyError is raised before any tally is recorded
and no summary is returned. -/
theorem dataset_summary_keyerror_bug :
    generate_dataset_quality_summary [emptyEpisodeInput] =
      Except.error "KeyError: critical_priority_issues" := by
  with_unfolding_all rfl

/-- C10: calculate_episode_confidence always returns a value in
[0.2, 1.0]: the 0.2 temporal-validity bonus is unconditional, every
indicator weight is non-negative, and the result is clamped only from
above at 1.0, so the confidence is never 0. -/
theorem calculate_episode_confidence_range (events outcomes : EventMap)
    (start_date end_date : Date) :
    1/5 ≤ calculate_episode_confidence events outcomes start_date end_date ∧
      calculate_episode_confidence events outcomes start_date end_date ≤ 1 :=
  confidence_bounds events outcomes start_date end_date
